import Mathlib

/-!
Verification development for the authentication core of the enterprise-app
repository: backend user controller (register/login), auth middleware
(token generation, route protection), error taxonomy, and the frontend
auth service / provider / route guard.  Pure shallow embedding: stateful
JS code becomes explicit state passing; the external bcrypt and
jsonwebtoken libraries are modelled abstractly (hashing as a function
parameter, tokens as an executable sign/encode/decode model).
-/

namespace EnterpriseApp

/-! ### Character-level string helpers

JavaScript semantics of `header.split(' ')` and `header.startsWith(p)`,
written over `List Char` so that they evaluate inside the kernel. -/

/-- The JS `p.startsWith` check over char lists: first argument is the prefix. -/
def startsWithChars : List Char → List Char → Bool
  | [], _ => true
  | _ :: _, [] => false
  | p :: ps, c :: cs => p = c && startsWithChars ps cs

/-- Split a char list at every occurrence of `sep`, keeping empty
groups, yielding `[[]]` on the empty list (JS `split` semantics). -/
def splitOnChar (sep : Char) : List Char → List (List Char)
  | [] => [[]]
  | c :: rest =>
    let groups := splitOnChar sep rest
    if c = sep then [] :: groups
    else
      match groups with
      | [] => [[c]]
      | g :: gs => (c :: g) :: gs

/-- JS `s.split(' ')` over char lists. -/
def jsSplitOnSpace (l : List Char) : List (List Char) :=
  splitOnChar ' ' l

/-! ### Data model: user records and the credential store -/

/-- A persisted user document (models/User.js document shape as used by
the controller: `_id`, names, unique email, hashed password, role). -/
structure User where
  _id : Nat
  firstName : Option String
  lastName : Option String
  email : String
  password : String
  role : String
deriving DecidableEq

/-- The credential store: the list of persisted user documents plus the
next identifier the store will assign on creation. -/
structure Store where
  users : List User
  nextId : Nat
deriving DecidableEq

/-- Embedding of `User.findOne({ email })`: first user document with the given email. -/
def Store.findOne (s : Store) (email : String) : Option User :=
  s.users.find? (fun u => u.email = email)

/-- Embedding of `User.findById(id)`: first user document with the given identifier. -/
def Store.findById (s : Store) (id : Nat) : Option User :=
  s.users.find? (fun u => u._id = id)

/-- Modelled from the spec: `User.create` of models/User.js, a file whose
source is not under src/ (only its callers are).  Per spec sections 3 and
4.3 step 3, persisting a new user assigns the next store identifier and
stores the password only as the one-way hash produced by the Password
Hasher (the pre-save hashing hook); the hasher itself is the external
bcrypt library, passed in as `hashFn`. -/
def Store.createUser (hashFn : String → String) (s : Store)
    (firstName lastName : Option String) (email pw role : String) :
    User × Store :=
  let u : User :=
    { _id := s.nextId, firstName := firstName, lastName := lastName,
      email := email, password := hashFn pw, role := role }
  (u, { users := s.users ++ [u], nextId := s.nextId + 1 })

/-! ### AppError (utils/appError.js) and the auth-routes error handler -/

/-- Structured application error: message, HTTP status code, error code,
and the `details` payload fields that the controller actually sets
(`missingFields` on validation errors, `reason` on auth failures). -/
structure AppError where
  message : String
  statusCode : Nat
  errorCode : String
  missingFields : List String
  reason : Option String
deriving DecidableEq

/-- Embedding of `AppError.create.badRequest` (status 400). -/
def AppError.badRequest (message : String) (missingFields : List String) : AppError :=
  { message := message, statusCode := 400, errorCode := "BAD_REQUEST",
    missingFields := missingFields, reason := none }

/-- Embedding of `AppError.create.unauthorized` (status 401) with the internal
`details.reason` the login controller attaches. -/
def AppError.unauthorized (message : String) (reason : String) : AppError :=
  { message := message, statusCode := 401, errorCode := "UNAUTHORIZED",
    missingFields := [], reason := some reason }

/-- Embedding of `AppError.create.conflict` (status 409). -/
def AppError.conflict (message : String) : AppError :=
  { message := message, statusCode := 409, errorCode := "CONFLICT",
    missingFields := [], reason := none }

/-- The status string AppError derives from its code
(fail for 4xx codes, error otherwise). -/
def AppError.status (e : AppError) : String :=
  if 400 ≤ e.statusCode ∧ e.statusCode < 500 then "fail" else "error"

/-- The JSON body the authRoutes error handler sends for an error. -/
structure ErrorBody where
  status : String
  message : String
deriving DecidableEq

/-- authRoutes error handler: it answers with the error status code and
a JSON body holding the fixed status text and the error message — the
full user-visible failure. -/
def authRoutesErrorResponse (e : AppError) : Nat × ErrorBody :=
  (e.statusCode, { status := "error", message := e.message })

/-! ### Token issuer / verifier

`AuthMiddleware.generateToken` calls `jwt.sign({id}, secret, expiresIn)`
and `protect` calls `jwt.verify(token, secret)`.  The jsonwebtoken
library is external, so sign/verify are modelled from the spec section
4.2: a token is an opaque string encoding the user id and an expiry
instant, carried with a keyed signature over both; verification
recomputes the signature and checks the expiry, and any failure
(malformed, tampered, expired) yields the same `none`. -/

/-- Payload carried by a token: user id, expiry instant, signature. -/
structure TokenPayload where
  id : Nat
  exp : Nat
  sig : Nat
deriving DecidableEq

/-- Keyed signature model over (id, exp) with the server secret. -/
def tokenSignature (secret id exp : Nat) : Nat :=
  (secret + 3 * id + 5 * exp + 7) % 251

/-- Tally rendering of a natural number as characters. -/
def encNat (n : Nat) : List Char :=
  List.replicate n 'x'

/-- Inverse of `encNat`; rejects any unexpected character. -/
def decNat (cs : List Char) : Option Nat :=
  if cs.all (fun c => decide (c = 'x')) then some cs.length else none

/-- Serialize a token payload into the opaque bearer string: the three
rendered fields joined by dots. -/
def encodeToken (t : TokenPayload) : String :=
  String.mk (encNat t.id ++ '.' :: (encNat t.exp ++ '.' :: encNat t.sig))

/-- Parse an opaque bearer string back into a payload; malformed strings
(wrong shape or unexpected characters) yield `none`. -/
def decodeToken (s : String) : Option TokenPayload :=
  match splitOnChar '.' s.data with
  | [a, b, c] =>
    match decNat a, decNat b, decNat c with
    | some i, some e, some g => some ⟨i, e, g⟩
    | _, _, _ => none
  | _ => none

/-- Embedding of `AuthMiddleware.generateToken(id)`: signs `{id}` with the secret and
the configured expiry window (seconds), stamped from issuance time. -/
def AuthMiddleware.generateToken (secret expiresIn id now : Nat) : String :=
  encodeToken { id := id, exp := now + expiresIn, sig := tokenSignature secret id (now + expiresIn) }

/-- The configured default expiry, one day, used when the environment
supplies none. -/
def defaultExpiresIn : Nat := 86400

/-- Embedding of `jwt.verify(token, secret)` at instant `now`: decode, recompute the
signature, check expiry; yields the encoded user id or fails. -/
def jwtVerify (secret : Nat) (s : String) (now : Nat) : Option Nat :=
  match decodeToken s with
  | some t =>
    if t.sig = tokenSignature secret t.id t.exp ∧ now < t.exp then some t.id else none
  | none => none

/-! ### UserController (controllers/userController.js) -/

/-- JS falsiness of a request-body string field: absent or empty. -/
def falsy : Option String → Bool
  | none => true
  | some s => decide (s = "")

/-- The missingFields detail the controller computes: a conditional
chain naming email if it is falsy, else password if it is falsy, else
nothing. -/
def missingFieldsOf (email password : Option String) : List String :=
  if falsy email then ["email"] else if falsy password then ["password"] else []

/-- The role default on registration: a falsy submitted role becomes
the user role. -/
def roleDefault : Option String → String
  | none => "user"
  | some s => if s = "" then "user" else s

/-- The `userResponse` object literal the register handler builds
(exactly the five fields `_id, firstName, lastName, email, role`). -/
structure RegisterUserSummary where
  _id : Nat
  firstName : Option String
  lastName : Option String
  email : String
  role : String
deriving DecidableEq

/-- Build the register response user summary from a user document. -/
def RegisterUserSummary.ofUser (u : User) : RegisterUserSummary :=
  { _id := u._id, firstName := u.firstName, lastName := u.lastName,
    email := u.email, role := u.role }

/-- The summary rendered as the JSON key/value list of the literal. -/
def RegisterUserSummary.fields (u : RegisterUserSummary) : List (String × String) :=
  [("_id", toString u._id),
   ("firstName", u.firstName.getD ""),
   ("lastName", u.lastName.getD ""),
   ("email", u.email),
   ("role", u.role)]

/-- The 201 success body of the register handler. -/
structure RegisterResponse where
  httpStatus : Nat
  status : String
  token : String
  user : RegisterUserSummary
deriving DecidableEq

/-- Outcome of a register call: an `AppError` handed to `next`, or the
success response. -/
inductive RegisterResult where
  | failure (err : AppError)
  | success (resp : RegisterResponse)
deriving DecidableEq

/-- Embedding of `UserController.register`: validate presence of email and password,
reject duplicate emails with Conflict, create the user (password hashed
by the store model, role defaulted), issue a token, and answer 201 with
the password-free user summary.  Returns the result together with the
store after the call. -/
def UserController.register (hashFn : String → String)
    (secret expiresIn now : Nat) (store : Store)
    (firstName lastName email password role : Option String) :
    RegisterResult × Store :=
  if falsy email || falsy password then
    (.failure (AppError.badRequest "Please provide email and password"
      (missingFieldsOf email password)), store)
  else
    let e := email.getD ""
    match store.findOne e with
    | some _ => (.failure (AppError.conflict "User with this email already exists"), store)
    | none =>
      let created := Store.createUser hashFn store firstName lastName e
        (password.getD "") (roleDefault role)
      let newUser := created.1
      let token := AuthMiddleware.generateToken secret expiresIn newUser._id now
      (.success { httpStatus := 201, status := "success", token := token,
                  user := RegisterUserSummary.ofUser newUser }, created.2)

/-- The 200 success body of the login handler
(`data.user` carries `_id`, `email`, `role`). -/
structure LoginResponse where
  httpStatus : Nat
  status : String
  token : String
  userId : Nat
  email : String
  role : String
deriving DecidableEq

/-- Outcome of a login call. -/
inductive LoginResult where
  | failure (err : AppError)
  | success (resp : LoginResponse)
deriving DecidableEq

/-- Embedding of `UserController.login`: validate presence, look the user up by email
(password hash included), verify the password via the hasher
(`user.comparePassword`, passed in as `verifyPw`), and issue a token.
Both the unknown-email path and the wrong-password path build their own
`AppError` (with distinct internal `reason` details). -/
def UserController.login (verifyPw : String → String → Bool)
    (secret expiresIn now : Nat) (store : Store)
    (email password : Option String) : LoginResult :=
  if falsy email || falsy password then
    .failure (AppError.badRequest "Please provide email and password"
      (missingFieldsOf email password))
  else
    match store.findOne (email.getD "") with
    | none => .failure (AppError.unauthorized "Incorrect email or password" "User not found")
    | some user =>
      if !(verifyPw (password.getD "") user.password) then
        .failure (AppError.unauthorized "Incorrect email or password" "Password mismatch")
      else
        .success { httpStatus := 200, status := "success",
                   token := AuthMiddleware.generateToken secret expiresIn user._id now,
                   userId := user._id, email := user.email, role := user.role }

/-- The user-visible part of a failed login: HTTP status code plus the
body the authRoutes error handler sends. -/
def loginVisible : LoginResult → Option (Nat × ErrorBody)
  | .failure e => some (authRoutesErrorResponse e)
  | .success _ => none

/-! ### AuthMiddleware.protect (middleware/authMiddleware.js) -/

/-- An incoming HTTP request as the middleware sees it. -/
structure Request where
  authorization : Option String
deriving DecidableEq

/-- Result of the protect middleware: a 401 JSON response with a
message, or success with the resolved user attached to the request. -/
inductive ProtectResult where
  | unauthorized (message : String)
  | success (user : User)
deriving DecidableEq

/-- Token extraction of `protect`: if the authorization header exists
and `startsWith('Bearer')`, the token is `header.split(' ')[1]`; a
missing header, a non-Bearer header, or a missing/empty second component
all leave the token unset. -/
def extractToken (req : Request) : Option String :=
  match req.authorization with
  | none => none
  | some h =>
    if startsWithChars "Bearer".data h.data then
      match (jsSplitOnSpace h.data).get? 1 with
      | none => none
      | some [] => none
      | some (c :: cs) => some (String.mk (c :: cs))
    else none

/-- Embedding of `AuthMiddleware.protect`: no token yields 401 "Not authorized to
access this route"; a token failing verification yields 401 "Token is
invalid or has expired"; a verified id with no matching user yields 401
"User no longer exists"; otherwise the user is attached. -/
def AuthMiddleware.protect (secret now : Nat) (store : Store) (req : Request) : ProtectResult :=
  match extractToken req with
  | none => .unauthorized "Not authorized to access this route"
  | some token =>
    match jwtVerify secret token now with
    | none => .unauthorized "Token is invalid or has expired"
    | some id =>
      match store.findById id with
      | none => .unauthorized "User no longer exists"
      | some u => .success u

/-- Embedding of `AuthMiddleware.restrictTo(...roles)`: 403 unless the resolved
user role is in the allow-list. -/
def AuthMiddleware.restrictTo (roles : List String) (u : User) : Bool :=
  roles.contains u.role

/-! ### Frontend: AuthService (services/authService.js),
AuthProvider (context/AuthContext.tsx), PrivateRoute -/

/-- The two durable localStorage entries the auth service manages.
`none` models an absent entry, `some s` the stored string `s`. -/
structure LocalStorage where
  token : Option String
  user : Option String
deriving DecidableEq

/-- The successful response body as the service consumes it: the raw
token string plus the serialized user summary it will cache. -/
structure AuthResponse where
  token : String
  userJson : String
deriving DecidableEq

/-- Outcome of the HTTP call underneath a service method: a resolved
response, or a rejection (status code and message) that axios raises. -/
inductive ApiOutcome where
  | ok (resp : AuthResponse)
  | err (code : Nat) (message : String)
deriving DecidableEq

/-- Embedding of `AuthService.register`: on a resolved response with a truthy token,
store both entries; on a rejection, log and re-raise leaving storage
untouched.  Returns the storage after the call and the propagated
result. -/
def AuthService.register (outcome : ApiOutcome) (ls : LocalStorage) :
    LocalStorage × Except (Nat × String) AuthResponse :=
  match outcome with
  | .err c m => (ls, .error (c, m))
  | .ok resp =>
    if resp.token = "" then (ls, .ok resp)
    else ({ token := some resp.token, user := some resp.userJson }, .ok resp)

/-- Embedding of `AuthService.login`: same storage behaviour as register. -/
def AuthService.login (outcome : ApiOutcome) (ls : LocalStorage) :
    LocalStorage × Except (Nat × String) AuthResponse :=
  match outcome with
  | .err c m => (ls, .error (c, m))
  | .ok resp =>
    if resp.token = "" then (ls, .ok resp)
    else ({ token := some resp.token, user := some resp.userJson }, .ok resp)

/-- Embedding of `AuthService.logout`: removes both entries; no server call. -/
def AuthService.logout (_ls : LocalStorage) : LocalStorage :=
  { token := none, user := none }

/-- Embedding of `AuthService.getCurrentUser`: the cached user entry if truthy. -/
def AuthService.getCurrentUser (ls : LocalStorage) : Option String :=
  match ls.user with
  | none => none
  | some s => if s = "" then none else some s

/-- Embedding of `AuthService.isAuthenticated`: double negation of the stored token
entry — its truthiness, with no verification at all. -/
def AuthService.isAuthenticated (ls : LocalStorage) : Bool :=
  match ls.token with
  | none => false
  | some t => if t = "" then false else true

/-- Embedding of `AuthService.getToken`: the raw stored token entry. -/
def AuthService.getToken (ls : LocalStorage) : Option String :=
  ls.token

/-- The provider state: current user summary and authenticated flag. -/
structure AuthState where
  user : Option String
  isAuthenticated : Bool
deriving DecidableEq

/-- AuthProvider initial state: seeded from the cached storage via
`AuthService.getCurrentUser` / `AuthService.isAuthenticated`. -/
def AuthProvider.init (ls : LocalStorage) : AuthState :=
  { user := AuthService.getCurrentUser ls,
    isAuthenticated := AuthService.isAuthenticated ls }

/-- AuthProvider `login`: call the service; on success set the user and
flip the flag; on failure re-raise (third component) leaving both the
state and the storage as the service left them (untouched). -/
def AuthProvider.login (outcome : ApiOutcome) (st : AuthState) (ls : LocalStorage) :
    AuthState × LocalStorage × Option (Nat × String) :=
  match AuthService.login outcome ls with
  | (ls1, .ok resp) =>
    ({ user := some resp.userJson, isAuthenticated := true }, ls1, none)
  | (ls1, .error e) => (st, ls1, some e)

/-- AuthProvider `register`: symmetric to login. -/
def AuthProvider.register (outcome : ApiOutcome) (st : AuthState) (ls : LocalStorage) :
    AuthState × LocalStorage × Option (Nat × String) :=
  match AuthService.register outcome ls with
  | (ls1, .ok resp) =>
    ({ user := some resp.userJson, isAuthenticated := true }, ls1, none)
  | (ls1, .error e) => (st, ls1, some e)

/-- AuthProvider `logout`: clear storage via the service, reset state. -/
def AuthProvider.logout (_st : AuthState) (ls : LocalStorage) :
    AuthState × LocalStorage :=
  ({ user := none, isAuthenticated := false }, AuthService.logout ls)

/-- What PrivateRoute renders. -/
inductive RouteRender where
  | outlet
  | navigateToLogin
deriving DecidableEq

/-- Embedding of `PrivateRoute`: render the outlet when authenticated, else navigate to login. -/
def PrivateRoute.render (isAuthenticated : Bool) : RouteRender :=
  if isAuthenticated then .outlet else .navigateToLogin

/-- Invariant of the two durable entries: both present or both absent. -/
def bothOrNeither (ls : LocalStorage) : Bool :=
  (ls.token.isSome && ls.user.isSome) || (ls.token.isNone && ls.user.isNone)

/-! ### Shared lemmas -/

/-- A separator-free char list forms a single group under the split. -/
theorem splitOnChar_sepFree (sep : Char) (a : List Char)
    (ha : ∀ c ∈ a, c ≠ sep) : splitOnChar sep a = [a] := by
  induction a with
  | nil => simp [splitOnChar]
  | cons c rest ih =>
    have hc : c ≠ sep := ha c (by simp)
    have hrest : ∀ x ∈ rest, x ≠ sep := fun x hx => ha x (by simp [hx])
    simp [splitOnChar, hc, ih hrest]

/-- Splitting after a separator-free chunk peels off that chunk. -/
theorem splitOnChar_append (sep : Char) (a rest : List Char)
    (ha : ∀ c ∈ a, c ≠ sep) :
    splitOnChar sep (a ++ sep :: rest) = a :: splitOnChar sep rest := by
  induction a with
  | nil => simp [splitOnChar]
  | cons c a2 ih =>
    have hc : c ≠ sep := ha c (by simp)
    have ha2 : ∀ x ∈ a2, x ≠ sep := fun x hx => ha x (by simp [hx])
    simp only [List.cons_append, splitOnChar, List.append_eq]
    rw [ih ha2]
    simp [hc]

/-- Decoding inverts the tally rendering of a natural number. -/
theorem decNat_encNat (n : Nat) : decNat (encNat n) = some n := by
  simp [decNat, encNat, List.all_eq_true, List.mem_replicate]

/-- The rendering of a number never contains the dot separator. -/
theorem encNat_dotFree (n : Nat) : ∀ c ∈ encNat n, c ≠ '.' := by
  intro c hc
  rw [encNat] at hc
  rcases List.eq_of_mem_replicate hc with rfl
  decide

/-- Decoding inverts token serialization. -/
theorem decodeToken_encodeToken (t : TokenPayload) :
    decodeToken (encodeToken t) = some t := by
  have h1 := splitOnChar_append '.' (encNat t.id)
    (encNat t.exp ++ '.' :: encNat t.sig) (encNat_dotFree t.id)
  have h2 := splitOnChar_append '.' (encNat t.exp)
    (encNat t.sig) (encNat_dotFree t.exp)
  have h3 := splitOnChar_sepFree '.' (encNat t.sig) (encNat_dotFree t.sig)
  simp [decodeToken, encodeToken, h1, h2, h3, decNat_encNat]

/-- Concrete fixture: a stored user document. -/
def sampleUser : User :=
  { _id := 1, firstName := some "Jane", lastName := some "Doe",
    email := "jane@example.com", password := "#SecurePass456!", role := "user" }

/-- Concrete fixture: a store holding just `sampleUser`. -/
def sampleStore : Store := { users := [sampleUser], nextId := 2 }

/-- Concrete fixture: a password verifier matching `fun p => "#" ++ p`
as the hash function. -/
def sampleVerify (candidate stored : String) : Bool :=
  decide (stored = "#" ++ candidate)

/-! ### Claim theorems -/

/-- C3: for every user id, verifying a token issued for that id yields
that same id at any instant before the configured expiry has elapsed,
and verification fails at any instant from the expiry on. -/
theorem token_roundtrip (secret expiresIn id now now2 : Nat) :
    (now2 < now + expiresIn →
      jwtVerify secret (AuthMiddleware.generateToken secret expiresIn id now) now2 = some id) ∧
    (now + expiresIn ≤ now2 →
      jwtVerify secret (AuthMiddleware.generateToken secret expiresIn id now) now2 = none) := by
  constructor
  · intro h
    simp [jwtVerify, AuthMiddleware.generateToken, decodeToken_encodeToken, h]
  · intro h
    have h2 : ¬ (now2 < now + expiresIn) := by omega
    simp [jwtVerify, AuthMiddleware.generateToken, decodeToken_encodeToken, h2]

/-- Witness for C3 at secret 5, expiry window 3, id 7, issued at 0:
valid at instant 2, failing at instant 3. -/
theorem token_roundtrip_witness :
    (2 < 0 + 3 ∧
      jwtVerify 5 (AuthMiddleware.generateToken 5 3 7 0) 2 = some 7) ∧
    (0 + 3 ≤ 3 ∧
      jwtVerify 5 (AuthMiddleware.generateToken 5 3 7 0) 3 = none) :=
  ⟨⟨by decide, (token_roundtrip 5 3 7 0 2).1 (by decide)⟩,
   ⟨by decide, (token_roundtrip 5 3 7 0 3).2 (by decide)⟩⟩

/-- C1: with both login fields supplied, the unknown-email path and the
wrong-password path each fail with the same user-visible response —
status 401 and body message "Incorrect email or password" — even though
the two paths build errors with distinct internal reasons. -/
theorem login_enumeration_resistance (verifyPw : String → String → Bool)
    (secret expiresIn now : Nat) (store : Store) (email pw : String)
    (he : email ≠ "") (hp : pw ≠ "") :
    (store.findOne email = none →
      UserController.login verifyPw secret expiresIn now store (some email) (some pw)
        = .failure (AppError.unauthorized "Incorrect email or password" "User not found") ∧
      loginVisible (UserController.login verifyPw secret expiresIn now store (some email) (some pw))
        = some (401, { status := "error", message := "Incorrect email or password" })) ∧
    (∀ u, store.findOne email = some u → verifyPw pw u.password = false →
      UserController.login verifyPw secret expiresIn now store (some email) (some pw)
        = .failure (AppError.unauthorized "Incorrect email or password" "Password mismatch") ∧
      loginVisible (UserController.login verifyPw secret expiresIn now store (some email) (some pw))
        = some (401, { status := "error", message := "Incorrect email or password" })) := by
  have hcond : (falsy (some email) || falsy (some pw)) = false := by
    simp [falsy, he, hp]
  constructor
  · intro hnone
    simp [UserController.login, hcond, hnone, loginVisible,
      authRoutesErrorResponse, AppError.unauthorized]
  · intro u hu hv
    simp [UserController.login, hcond, hu, hv, loginVisible,
      authRoutesErrorResponse, AppError.unauthorized]

/-- Witness for C1: on `sampleStore`, login with an unregistered email
and login with a wrong password for the registered email produce the
same visible 401 response. -/
theorem login_enumeration_resistance_witness :
    (("nobody@example.com" : String) ≠ "" ∧ ("pw" : String) ≠ "" ∧
      sampleStore.findOne "nobody@example.com" = none ∧
      loginVisible (UserController.login sampleVerify 5 3 0 sampleStore
          (some "nobody@example.com") (some "pw"))
        = some (401, { status := "error", message := "Incorrect email or password" })) ∧
    (("jane@example.com" : String) ≠ "" ∧ ("wrong" : String) ≠ "" ∧
      sampleStore.findOne "jane@example.com" = some sampleUser ∧
      sampleVerify "wrong" sampleUser.password = false ∧
      loginVisible (UserController.login sampleVerify 5 3 0 sampleStore
          (some "jane@example.com") (some "wrong"))
        = some (401, { status := "error", message := "Incorrect email or password" })) :=
  ⟨⟨by decide, by decide, by decide,
    ((login_enumeration_resistance sampleVerify 5 3 0 sampleStore
        "nobody@example.com" "pw" (by decide) (by decide)).1 (by decide)).2⟩,
   ⟨by decide, by decide, by decide, by decide,
    ((login_enumeration_resistance sampleVerify 5 3 0 sampleStore
        "jane@example.com" "wrong" (by decide) (by decide)).2 sampleUser
        (by decide) (by decide)).2⟩⟩



/-- C2: a successful Register persists exactly one new record, whose
password field is the hash of the submitted password (never the
plaintext, whenever hashing changes the string) and whose role defaults
to "user" when none is supplied. -/
theorem register_hashes_password (hashFn : String → String)
    (secret expiresIn now : Nat) (store : Store) (fn ln : Option String)
    (email pw : String) (role : Option String)
    (he : email ≠ "") (hp : pw ≠ "") (hfresh : store.findOne email = none) :
    (UserController.register hashFn secret expiresIn now store fn ln
        (some email) (some pw) role).2.users
      = store.users ++
        [{ _id := store.nextId, firstName := fn, lastName := ln, email := email,
           password := hashFn pw, role := roleDefault role }] ∧
    roleDefault none = "user" ∧
    (∀ u, u ∈ (UserController.register hashFn secret expiresIn now store fn ln
        (some email) (some pw) role).2.users → u ∉ store.users →
      u.password = hashFn pw ∧ (hashFn pw ≠ pw → u.password ≠ pw)) := by
  have hcond : (falsy (some email) || falsy (some pw)) = false := by
    simp [falsy, he, hp]
  have hmain : (UserController.register hashFn secret expiresIn now store fn ln
      (some email) (some pw) role).2.users
      = store.users ++
        [{ _id := store.nextId, firstName := fn, lastName := ln, email := email,
           password := hashFn pw, role := roleDefault role }] := by
    simp [UserController.register, hcond, hfresh, Store.createUser]
  refine ⟨hmain, rfl, ?_⟩
  intro u hu hnot
  rw [hmain] at hu
  rcases List.mem_append.mp hu with h | h
  · exact absurd h hnot
  · rcases List.mem_singleton.mp h with rfl
    exact ⟨rfl, fun hne => hne⟩

/-- Witness for C2: registering a fresh email against `sampleStore`
appends one record carrying the hashed password and the default role. -/
theorem register_hashes_password_witness :
    (("new@example.com" : String) ≠ "" ∧ ("pw1" : String) ≠ "" ∧
      sampleStore.findOne "new@example.com" = none) ∧
    (UserController.register (fun p => "#" ++ p) 5 3 0 sampleStore
        (some "Ann") (some "Lee") (some "new@example.com") (some "pw1") none).2.users
      = sampleStore.users ++
        [{ _id := sampleStore.nextId, firstName := some "Ann", lastName := some "Lee",
           email := "new@example.com", password := "#" ++ "pw1", role := roleDefault none }] :=
  ⟨⟨by decide, by decide, by decide⟩,
   (register_hashes_password (fun p => "#" ++ p) 5 3 0 sampleStore
      (some "Ann") (some "Lee") "new@example.com" "pw1" none
      (by decide) (by decide) (by decide)).1⟩

/-- C4: registering an email that already has a record fails with the
409 Conflict error and returns the store unchanged; moreover any
register call (any inputs, any branch) preserves distinctness of the
stored emails, so uniqueness is enforced at creation. -/
theorem register_duplicate_conflict (hashFn : String → String)
    (secret expiresIn now : Nat) (store : Store) (fn ln : Option String)
    (email pw : String) (role : Option String)
    (he : email ≠ "") (hp : pw ≠ "") (hdup : (store.findOne email).isSome) :
    UserController.register hashFn secret expiresIn now store fn ln
        (some email) (some pw) role
      = (.failure (AppError.conflict "User with this email already exists"), store) ∧
    authRoutesErrorResponse (AppError.conflict "User with this email already exists")
      = (409, { status := "error", message := "User with this email already exists" }) ∧
    (∀ (fn2 ln2 email2 pw2 role2 : Option String),
      ((store.users.map (fun u => u.email)).Nodup →
        (((UserController.register hashFn secret expiresIn now store fn2 ln2
            email2 pw2 role2).2).users.map (fun u => u.email)).Nodup)) := by
  have hcond : (falsy (some email) || falsy (some pw)) = false := by
    simp [falsy, he, hp]
  obtain ⟨u, hu⟩ := Option.isSome_iff_exists.mp hdup
  refine ⟨?_, rfl, ?_⟩
  · simp [UserController.register, hcond, hu]
  · intro fn2 ln2 email2 pw2 role2 hnodup
    by_cases hval : (falsy email2 || falsy pw2) = true
    · simpa [UserController.register, hval] using hnodup
    · rw [Bool.not_eq_true] at hval
      rcases hfind : store.findOne (email2.getD "") with _ | u2
      · have hfresh : ∀ v ∈ store.users, v.email ≠ email2.getD "" := by
          intro v hv
          have := List.find?_eq_none.mp hfind v hv
          simpa using this
        have : (((UserController.register hashFn secret expiresIn now store fn2 ln2
            email2 pw2 role2).2).users.map (fun u => u.email))
            = store.users.map (fun u => u.email) ++ [email2.getD ""] := by
          simp [UserController.register, hval, hfind, Store.createUser]
        rw [this, List.nodup_append]
        refine ⟨hnodup, List.nodup_singleton _, ?_⟩
        intro x hx hmem
        rcases List.mem_map.mp hx with ⟨v, hv, rfl⟩
        rcases List.mem_singleton.mp hmem with h
        exact hfresh v hv h
      · simpa [UserController.register, hval, hfind] using hnodup

/-- Witness for C4: a second registration of the email already stored in
`sampleStore` answers Conflict and leaves the store as it was. -/
theorem register_duplicate_conflict_witness :
    (("jane@example.com" : String) ≠ "" ∧ ("pw2" : String) ≠ "" ∧
      (sampleStore.findOne "jane@example.com").isSome = true) ∧
    UserController.register (fun p => "#" ++ p) 5 3 0 sampleStore
        (some "Jane") (some "Doe") (some "jane@example.com") (some "pw2") none
      = (.failure (AppError.conflict "User with this email already exists"), sampleStore) :=
  ⟨⟨by decide, by decide, by decide⟩,
   (register_duplicate_conflict (fun p => "#" ++ p) 5 3 0 sampleStore
      (some "Jane") (some "Doe") "jane@example.com" "pw2" none
      (by decide) (by decide) (by decide)).1⟩

/-- C6: a successful Register answers HTTP 201 with status "success",
the token issued for the new identifier, and a user summary whose
serialized keys are exactly _id, firstName, lastName, email and role —
no password key — and whose construction ignores the password field of
the persisted record entirely. -/
theorem register_success_response (hashFn : String → String)
    (secret expiresIn now : Nat) (store : Store) (fn ln : Option String)
    (email pw : String) (role : Option String)
    (he : email ≠ "") (hp : pw ≠ "") (hfresh : store.findOne email = none) :
    (UserController.register hashFn secret expiresIn now store fn ln
        (some email) (some pw) role).1
      = .success { httpStatus := 201, status := "success",
                   token := AuthMiddleware.generateToken secret expiresIn store.nextId now,
                   user := { _id := store.nextId, firstName := fn, lastName := ln,
                             email := email, role := roleDefault role } } ∧
    (∀ s : RegisterUserSummary,
      (RegisterUserSummary.fields s).map Prod.fst
        = ["_id", "firstName", "lastName", "email", "role"] ∧
      "password" ∉ (RegisterUserSummary.fields s).map Prod.fst) ∧
    (∀ (u : User) (p2 : String),
      RegisterUserSummary.ofUser { u with password := p2 }
        = RegisterUserSummary.ofUser u) := by
  have hcond : (falsy (some email) || falsy (some pw)) = false := by
    simp [falsy, he, hp]
  refine ⟨?_, ?_, ?_⟩
  · simp [UserController.register, hcond, hfresh, Store.createUser,
      RegisterUserSummary.ofUser]
  · intro s
    constructor
    · simp [RegisterUserSummary.fields]
    · simp [RegisterUserSummary.fields]
  · intro u p2
    simp [RegisterUserSummary.ofUser]

/-- Witness for C6: registering a fresh email against `sampleStore`
yields the full 201 success payload. -/
theorem register_success_response_witness :
    (("new@example.com" : String) ≠ "" ∧ ("pw1" : String) ≠ "" ∧
      sampleStore.findOne "new@example.com" = none) ∧
    (UserController.register (fun p => "#" ++ p) 5 3 0 sampleStore
        (some "Ann") (some "Lee") (some "new@example.com") (some "pw1") none).1
      = .success { httpStatus := 201, status := "success",
                   token := AuthMiddleware.generateToken 5 3 sampleStore.nextId 0,
                   user := { _id := sampleStore.nextId, firstName := some "Ann",
                             lastName := some "Lee", email := "new@example.com",
                             role := roleDefault none } } :=
  ⟨⟨by decide, by decide, by decide⟩,
   (register_success_response (fun p => "#" ++ p) 5 3 0 sampleStore
      (some "Ann") (some "Lee") "new@example.com" "pw1" none
      (by decide) (by decide) (by decide)).1⟩

/-- C7 counterexample: when both email and password are missing, the
register validation error names only "email" in `missingFields`, not
both fields as the claim states. -/
theorem register_both_missing_names_only_email :
    missingFieldsOf none none = ["email"] ∧
    "password" ∉ missingFieldsOf none none ∧
    (UserController.register (fun s => s) 0 0 0 { users := [], nextId := 0 }
        none none none none none).1
      = .failure (AppError.badRequest "Please provide email and password" ["email"]) := by
  refine ⟨by decide, by decide, by decide⟩

/-- C7 (amended): a Register or Login request with a falsy email or
password fails with the 400 BadRequest error before the Credential Store
is touched — the store is returned unchanged and the outcome is the same
for every store — and `missingFields` names the first missing field
(email first, else password), never both. -/
theorem validation_before_store (hashFn : String → String)
    (verifyPw : String → String → Bool) (secret expiresIn now : Nat)
    (store store2 : Store) (fn ln role : Option String)
    (email pw : Option String)
    (hinv : (falsy email || falsy pw) = true) :
    UserController.register hashFn secret expiresIn now store fn ln email pw role
      = (.failure (AppError.badRequest "Please provide email and password"
          (missingFieldsOf email pw)), store) ∧
    UserController.login verifyPw secret expiresIn now store email pw
      = .failure (AppError.badRequest "Please provide email and password"
          (missingFieldsOf email pw)) ∧
    missingFieldsOf email pw = (if falsy email then ["email"] else ["password"]) ∧
    (UserController.register hashFn secret expiresIn now store fn ln email pw role).1
      = (UserController.register hashFn secret expiresIn now store2 fn ln email pw role).1 ∧
    UserController.login verifyPw secret expiresIn now store email pw
      = UserController.login verifyPw secret expiresIn now store2 email pw := by
  refine ⟨?_, ?_, ?_, ?_, ?_⟩
  · simp [UserController.register, hinv]
  · simp [UserController.login, hinv]
  · rcases hb : falsy email with _ | _
    · have hpw : falsy pw = true := by
        rcases hq : falsy pw with _ | _
        · rw [hb, hq] at hinv
          simp at hinv
        · rfl
      simp [missingFieldsOf, hb, hpw]
    · simp [missingFieldsOf, hb]
  · simp [UserController.register, hinv]
  · simp [UserController.login, hinv]

/-- Witness for C7: a login with the password present but the email
absent is rejected as BadRequest naming only the email. -/
theorem validation_before_store_witness :
    (falsy none || falsy (some "pw")) = true ∧
    UserController.login sampleVerify 5 3 0 sampleStore none (some "pw")
      = .failure (AppError.badRequest "Please provide email and password"
          (missingFieldsOf none (some "pw"))) :=
  ⟨by decide,
   (validation_before_store (fun s => s) sampleVerify 5 3 0 sampleStore
      sampleStore none none none none (some "pw") (by decide)).2.1⟩

/-- C5 counterexample: the middleware checks only that the header
starts with Bearer, without the trailing space, so a header that is NOT
prefixed with Bearer-and-space still has a token extracted from it — here a valid token after the
prefix "BearerXX" leads `protect` to attach the user instead of failing
with the no-token Unauthorized response the claim requires. -/
theorem protect_accepts_nonspace_bearer_prefix :
    startsWithChars "Bearer ".data
        ("BearerXX " ++ AuthMiddleware.generateToken 0 2 1 0).data = false ∧
    AuthMiddleware.protect 0 1 sampleStore
        { authorization := some ("BearerXX " ++ AuthMiddleware.generateToken 0 2 1 0) }
      = .success sampleUser := by
  refine ⟨by decide, by decide⟩

/-- C5 (amended): the middleware extracts a bearer token whenever the
authorization header merely starts with "Bearer" (no trailing space
required), taking the second space-separated component; with no token so
extracted it fails 401 "Not authorized to access this route"; with a
token failing verification, 401 "Token is invalid or has expired"; with
a verified id that no longer resolves to a stored user, 401 "User no
longer exists"; otherwise the resolved user is attached. -/
theorem protect_branches (secret now : Nat) (store : Store) (req : Request) :
    (req.authorization = none → extractToken req = none) ∧
    (∀ h, req.authorization = some h →
      startsWithChars "Bearer".data h.data = false → extractToken req = none) ∧
    (extractToken req = none →
      AuthMiddleware.protect secret now store req
        = .unauthorized "Not authorized to access this route") ∧
    (∀ t, extractToken req = some t → jwtVerify secret t now = none →
      AuthMiddleware.protect secret now store req
        = .unauthorized "Token is invalid or has expired") ∧
    (∀ t id, extractToken req = some t → jwtVerify secret t now = some id →
      store.findById id = none →
      AuthMiddleware.protect secret now store req
        = .unauthorized "User no longer exists") ∧
    (∀ t id u, extractToken req = some t → jwtVerify secret t now = some id →
      store.findById id = some u →
      AuthMiddleware.protect secret now store req = .success u) := by
  refine ⟨?_, ?_, ?_, ?_, ?_, ?_⟩
  · intro h
    simp [extractToken, h]
  · intro h hh hpre
    simp [extractToken, hh, hpre]
  · intro h
    simp [AuthMiddleware.protect, h]
  · intro t ht hv
    simp [AuthMiddleware.protect, ht, hv]
  · intro t id ht hv hf
    simp [AuthMiddleware.protect, ht, hv, hf]
  · intro t id u ht hv hf
    simp [AuthMiddleware.protect, ht, hv, hf]

/-- Witness for C5: each branch exercised concretely — missing header;
garbage token; valid token for an absent user; valid token resolving to
`sampleUser`. -/
theorem protect_branches_witness :
    AuthMiddleware.protect 0 0 sampleStore { authorization := none }
      = .unauthorized "Not authorized to access this route" ∧
    AuthMiddleware.protect 0 0 sampleStore { authorization := some "Bearer zz" }
      = .unauthorized "Token is invalid or has expired" ∧
    AuthMiddleware.protect 0 1 sampleStore
        { authorization := some ("Bearer " ++ AuthMiddleware.generateToken 0 2 9 0) }
      = .unauthorized "User no longer exists" ∧
    AuthMiddleware.protect 0 1 sampleStore
        { authorization := some ("Bearer " ++ AuthMiddleware.generateToken 0 2 1 0) }
      = .success sampleUser :=
  ⟨(protect_branches 0 0 sampleStore { authorization := none }).2.2.1 (by decide),
   (protect_branches 0 0 sampleStore { authorization := some "Bearer zz" }).2.2.2.1
     "zz" (by decide) (by decide),
   (protect_branches 0 1 sampleStore
       { authorization := some ("Bearer " ++ AuthMiddleware.generateToken 0 2 9 0) }).2.2.2.2.1
     (AuthMiddleware.generateToken 0 2 9 0) 9 (by decide) (by decide) (by decide),
   (protect_branches 0 1 sampleStore
       { authorization := some ("Bearer " ++ AuthMiddleware.generateToken 0 2 1 0) }).2.2.2.2.2
     (AuthMiddleware.generateToken 0 2 1 0) 1 sampleUser (by decide) (by decide) (by decide)⟩

/-- C8: the two durable entries move together — a successful login or
registration (whose response token is non-empty, as every issued token
is) sets both to the response values, logout clears both, a failed call
changes neither — so every AuthService operation preserves the
both-present-or-both-absent invariant. -/
theorem authService_entries_paired (outcome : ApiOutcome) (ls : LocalStorage)
    (hinv : bothOrNeither ls = true) :
    bothOrNeither (AuthService.register outcome ls).1 = true ∧
    bothOrNeither (AuthService.login outcome ls).1 = true ∧
    bothOrNeither (AuthService.logout ls) = true ∧
    (∀ resp, outcome = .ok resp → resp.token ≠ "" →
      (AuthService.register outcome ls).1
        = { token := some resp.token, user := some resp.userJson } ∧
      (AuthService.login outcome ls).1
        = { token := some resp.token, user := some resp.userJson }) ∧
    (∀ c m, outcome = .err c m →
      (AuthService.register outcome ls).1 = ls ∧
      (AuthService.login outcome ls).1 = ls) ∧
    (AuthService.logout ls).token = none ∧ (AuthService.logout ls).user = none := by
  refine ⟨?_, ?_, by simp [AuthService.logout, bothOrNeither], ?_, ?_,
    rfl, rfl⟩
  · cases outcome with
    | ok resp =>
      by_cases ht : resp.token = ""
      · simpa [AuthService.register, ht] using hinv
      · simp [AuthService.register, ht, bothOrNeither]
    | err c m => simpa [AuthService.register] using hinv
  · cases outcome with
    | ok resp =>
      by_cases ht : resp.token = ""
      · simpa [AuthService.login, ht] using hinv
      · simp [AuthService.login, ht, bothOrNeither]
    | err c m => simpa [AuthService.login] using hinv
  · intro resp hok ht
    subst hok
    constructor
    · simp [AuthService.register, ht]
    · simp [AuthService.login, ht]
  · intro c m herr
    subst herr
    exact ⟨rfl, rfl⟩

/-- Witness for C8: from empty storage, a successful login sets both
entries; logging out clears both. -/
theorem authService_entries_paired_witness :
    bothOrNeither { token := none, user := none } = true ∧
    (AuthService.login (.ok { token := "tok", userJson := "{}" })
        { token := none, user := none }).1
      = { token := some "tok", user := some "{}" } ∧
    bothOrNeither (AuthService.logout
        { token := some "tok", user := some "{}" }) = true :=
  ⟨by decide,
   ((authService_entries_paired (.ok { token := "tok", userJson := "{}" })
       { token := none, user := none } (by decide)).2.2.2.1
     { token := "tok", userJson := "{}" } rfl (by decide)).2,
   (authService_entries_paired (.ok { token := "tok", userJson := "{}" })
       { token := some "tok", user := some "{}" } (by decide)).2.2.1⟩

/-- C9: a failing provider login or register call leaves the session
state and the cached entries exactly as they were and re-raises the
error; a successful call (non-empty token) replaces the cached entries,
stores the returned user, and sets the authenticated flag. -/
theorem authProvider_failure_leaves_state (outcome : ApiOutcome)
    (st : AuthState) (ls : LocalStorage) :
    (∀ c m, outcome = .err c m →
      AuthProvider.login outcome st ls = (st, ls, some (c, m)) ∧
      AuthProvider.register outcome st ls = (st, ls, some (c, m))) ∧
    (∀ resp, outcome = .ok resp → resp.token ≠ "" →
      AuthProvider.login outcome st ls
        = ({ user := some resp.userJson, isAuthenticated := true },
           { token := some resp.token, user := some resp.userJson }, none) ∧
      AuthProvider.register outcome st ls
        = ({ user := some resp.userJson, isAuthenticated := true },
           { token := some resp.token, user := some resp.userJson }, none)) := by
  constructor
  · intro c m herr
    subst herr
    constructor
    · simp [AuthProvider.login, AuthService.login]
    · simp [AuthProvider.register, AuthService.register]
  · intro resp hok ht
    subst hok
    constructor
    · simp [AuthProvider.login, AuthService.login, ht]
    · simp [AuthProvider.register, AuthService.register, ht]

/-- Witness for C9: a 401 rejection leaves a populated session intact
and re-raises; a success replaces it. -/
theorem authProvider_failure_leaves_state_witness :
    AuthProvider.login (.err 401 "Incorrect email or password")
        { user := some "old", isAuthenticated := true }
        { token := some "t0", user := some "old" }
      = ({ user := some "old", isAuthenticated := true },
         { token := some "t0", user := some "old" },
         some (401, "Incorrect email or password")) ∧
    AuthProvider.register (.ok { token := "t1", userJson := "new" })
        { user := none, isAuthenticated := false }
        { token := none, user := none }
      = ({ user := some "new", isAuthenticated := true },
         { token := some "t1", user := some "new" }, none) :=
  ⟨((authProvider_failure_leaves_state (.err 401 "Incorrect email or password")
      { user := some "old", isAuthenticated := true }
      { token := some "t0", user := some "old" }).1
      401 "Incorrect email or password" rfl).1,
   ((authProvider_failure_leaves_state (.ok { token := "t1", userJson := "new" })
      { user := none, isAuthenticated := false }
      { token := none, user := none }).2
      { token := "t1", userJson := "new" } rfl (by decide)).2⟩

/-- C10 counterexample: an empty string is a stored token string for
which `isAuthenticated` is false and the guard redirects to login, so
the claim as stated (true for every stored token string) fails. -/
theorem isAuthenticated_empty_token_false :
    AuthService.isAuthenticated { token := some "", user := some "u" } = false ∧
    PrivateRoute.render
        (AuthService.isAuthenticated { token := some "", user := some "u" })
      = .navigateToLogin := by
  refine ⟨by decide, by decide⟩

/-- C10 (amended): the authenticated flag is derived solely from the
presence of a non-empty token entry: for every non-empty stored token
string — the string is arbitrary, so in particular malformed or expired
tokens qualify, no verification being consulted — `isAuthenticated` is
true, the provider initializes with the flag set, and the route guard
renders the protected outlet; with no token entry the guard redirects
to login. -/
theorem isAuthenticated_from_token_presence (s : String) (hs : s ≠ "")
    (u : Option String) :
    AuthService.isAuthenticated { token := some s, user := u } = true ∧
    (AuthProvider.init { token := some s, user := u }).isAuthenticated = true ∧
    PrivateRoute.render
        ((AuthProvider.init { token := some s, user := u }).isAuthenticated)
      = .outlet ∧
    (∀ u2 : Option String,
      AuthService.isAuthenticated { token := none, user := u2 } = false ∧
      PrivateRoute.render
          (AuthService.isAuthenticated { token := none, user := u2 })
        = .navigateToLogin) := by
  have h1 : AuthService.isAuthenticated { token := some s, user := u } = true := by
    simp [AuthService.isAuthenticated, hs]
  refine ⟨h1, ?_, ?_, ?_⟩
  · simp [AuthProvider.init, h1]
  · simp [AuthProvider.init, h1, PrivateRoute.render]
  · intro u2
    constructor
    · simp [AuthService.isAuthenticated]
    · simp [AuthService.isAuthenticated, PrivateRoute.render]

/-- Witness for C10: "garbage" is a stored token string that every
verification attempt rejects, yet the guard renders the protected
outlet. -/
theorem isAuthenticated_from_token_presence_witness :
    (("garbage" : String) ≠ "" ∧ jwtVerify 0 "garbage" 0 = none) ∧
    AuthService.isAuthenticated { token := some "garbage", user := none } = true ∧
    PrivateRoute.render
        ((AuthProvider.init { token := some "garbage", user := none }).isAuthenticated)
      = .outlet :=
  ⟨⟨by decide, by decide⟩,
   (isAuthenticated_from_token_presence "garbage" (by decide) none).1,
   (isAuthenticated_from_token_presence "garbage" (by decide) none).2.2.1⟩
